import Mathlib

/-!
# Mask editing and job-state synchronisation

A shallow embedding of the two browser scripts of the cubic-yards estimator:

* `backend/static/app.js`  → namespace `Backend`
* `frontend/static/app.js` → namespace `Frontend`

Module-level `let` variables and the DOM properties the handlers read or write
become fields of an explicit state record.  Every event handler is a function on
that record.  An `async` handler is cut at its `await`s: one function per
segment, the awaited value (blob, transport response) being an argument of the
next segment.  Network requests are returned as values.

JavaScript numbers are binary64 floating-point values: a finite one is the
rational it denotes, and every arithmetic operation of the letterboxing
transform rounds its exact result to the nearest binary64 value
(`roundDouble`).  The canvas bitmap is abstracted by the list of paint
operations applied since it was last blank.
-/

namespace CuYards

/-! ## Data model -/

/-- A file of the file picker: the `name` the script correlates on, the raw
contents, and the intrinsic size the browser finds when it decodes them. -/
structure LocalPhoto where
  name : String
  bytes : Nat
  width : Nat
  height : Nat
  deriving DecidableEq, Repr

/-- A decoded `Image` element. -/
structure Image where
  src : Nat
  width : Nat
  height : Nat
  deriving DecidableEq, Repr

/-- One entry of `photos` in the job-creation response. -/
structure JobPhoto where
  photo_id : String
  filename : Option String
  deriving DecidableEq, Repr

/-- Body of a successful `POST /jobs` response. -/
structure JobData where
  job_id : String
  photos : List JobPhoto
  deriving DecidableEq, Repr

/-- What `fetch` resolves to: the `ok` flag and the decoded body. -/
structure Response (α : Type) where
  ok : Bool
  json : α
  deriving DecidableEq, Repr

/-- The image `img.onload` delivers for a file read with `readAsDataURL`. -/
def decodeImage (f : LocalPhoto) : Image :=
  { src := f.bytes, width := f.width, height := f.height }

/-- Template-literal rendering of a value that may be `null`. -/
def jsString : Option String → String
  | none => "null"
  | some s => s

/-- JavaScript truthiness of a string-or-null value (`!jobId` is its negation). -/
def truthy : Option String → Bool
  | none => false
  | some s => s != ""

/-! ## Canvas -/

/-- One paint operation on the 2D context. -/
inductive Paint where
  | image (img : Image) (dx dy dw dh : ℚ)
  | stroke (path : List (Int × Int))
  | clear (x y w h : ℚ)
  deriving DecidableEq, Repr

/-- The mask canvas: its fixed size, what has been painted since it was last
blank, and the current path of the context. -/
structure Canvas where
  width : Nat
  height : Nat
  painted : List Paint
  path : List (Int × Int)
  deriving DecidableEq, Repr

/-- `ctx.clearRect(x, y, w, h)`: a rectangle covering the whole bitmap leaves it
blank; any other rectangle is recorded as an operation. -/
def Canvas.clearRect (c : Canvas) (x y w h : ℚ) : Canvas :=
  if x ≤ 0 ∧ y ≤ 0 ∧ (c.width : ℚ) ≤ x + w ∧ (c.height : ℚ) ≤ y + h then
    { c with painted := [] }
  else
    { c with painted := c.painted ++ [Paint.clear x y w h] }

/-- `ctx.drawImage(img, dx, dy, dw, dh)`.  An image whose intrinsic width or
height is zero is not drawn (for such an image the script's arguments are not
even finite numbers). -/
def Canvas.drawImage (c : Canvas) (img : Image) (dx dy dw dh : ℚ) : Canvas :=
  if img.width = 0 ∨ img.height = 0 then c
  else { c with painted := c.painted ++ [Paint.image img dx dy dw dh] }

/-- `ctx.beginPath()`. -/
def Canvas.beginPath (c : Canvas) : Canvas :=
  { c with path := [] }

/-- `ctx.moveTo(x, y)` (the script only calls it right after `beginPath`). -/
def Canvas.moveTo (c : Canvas) (x y : Int) : Canvas :=
  { c with path := c.path ++ [(x, y)] }

/-- `ctx.lineTo(x, y)`. -/
def Canvas.lineTo (c : Canvas) (x y : Int) : Canvas :=
  { c with path := c.path ++ [(x, y)] }

/-- `ctx.stroke()`: strokes the whole current path. -/
def Canvas.stroke (c : Canvas) : Canvas :=
  { c with painted := c.painted ++ [Paint.stroke c.path] }

/-! ## Numbers -/

/-- The integer nearest to `m`, the even one of the two when `m` lies halfway. -/
def roundHalfEven (m : ℚ) : ℤ :=
  let f := ⌊m⌋
  let r := m - f
  if r < 1 / 2 then f
  else if 1 / 2 < r then f + 1
  else if f % 2 = 0 then f else f + 1

/-- Rounding of an exact result to binary64: 53 significant bits, round to
nearest, ties to even.  The exponent is not bounded here; the values the
transform meets for canvas and image sizes below `2^32` (the DOM's
`unsigned long`) are far from overflow and underflow. -/
def roundDouble (q : ℚ) : ℚ :=
  if q = 0 then 0
  else
    let e := Int.log 2 |q| - 52
    (roundHalfEven (q / 2 ^ e) : ℚ) * 2 ^ e

/-- The numbers `resetCanvas` computes in lines 26-30. -/
structure DisplayTransform where
  scale : ℚ
  scaledWidth : ℚ
  scaledHeight : ℚ
  offsetX : ℚ
  offsetY : ℚ
  deriving DecidableEq, Repr

/-- Lines 26-30 of `resetCanvas`, for a canvas `W × H` and an image `w × h`
with `w, h ≠ 0`: each `/`, `*` and `-` is the binary64 operation.  (For an image
of width or height zero the script's numbers are infinite or `NaN`; they are
not modelled, and `drawImage` draws nothing for such an image.) -/
def displayTransform (W H w h : ℚ) : DisplayTransform :=
  let scale := min (roundDouble (W / w)) (roundDouble (H / h))
  let scaledWidth := roundDouble (w * scale)
  let scaledHeight := roundDouble (h * scale)
  let offsetX := roundDouble (roundDouble (W - scaledWidth) / 2)
  let offsetY := roundDouble (roundDouble (H - scaledHeight) / 2)
  { scale := scale, scaledWidth := scaledWidth, scaledHeight := scaledHeight,
    offsetX := offsetX, offsetY := offsetY }

/-- `Array.prototype.findIndex`: the first index whose element satisfies `p`,
or `-1`. -/
def findIndex {α : Type} (p : α → Bool) (xs : List α) : Int :=
  match xs.findIdx? p with
  | some i => (i : Int)
  | none => -1

/-- `xs[i]` on an array: `undefined` (here `none`) outside `0 .. length-1`. -/
def arrayGet {α : Type} (xs : List α) (i : Int) : Option α :=
  if i < 0 then none else xs[i.toNat]?

/-! ## Network requests (all are `POST`) -/

/-- The `FormData` body of a request. -/
inductive Body where
  | files (field : String) (fs : List LocalPhoto)
  | blob (field : String) (filename : String) (content : List Paint)
  | form (field : String) (value : String)
  | empty
  deriving DecidableEq, Repr

/-- One `fetch` call. -/
structure Request where
  url : String
  body : Body
  deriving DecidableEq, Repr

/-! ## `backend/static/app.js` -/

namespace Backend

/-- The module variables (lines 10-14), the canvas with its context, the parts
of the DOM the handlers use, and the image loads that are in flight. -/
structure State where
  jobId : Option String
  uploadedPhotos : List LocalPhoto
  jobPhotos : List JobPhoto
  currentImage : Option Image
  drawing : Bool
  canvas : Canvas
  /-- values of the `option` children of `photoSelect` -/
  options : List String
  /-- `photoSelect.value` -/
  selected : String
  /-- `resultOutput.textContent` -/
  resultOutput : String
  /-- `runEstimateBtn.disabled` -/
  runEstimateDisabled : Bool
  /-- files whose `FileReader` / `Image` chain has started and whose
  `img.onload` has not fired yet, oldest first -/
  loading : List LocalPhoto
  deriving DecidableEq, Repr

/-- State of a freshly loaded page with a `W × H` canvas. -/
def State.init (W H : Nat) : State :=
  { jobId := none, uploadedPhotos := [], jobPhotos := [], currentImage := none,
    drawing := false, canvas := { width := W, height := H, painted := [], path := [] },
    options := [], selected := "", resultOutput := "", runEstimateDisabled := true,
    loading := [] }

/-- `resetCanvas` (lines 21-32). -/
def resetCanvas (s : State) : State :=
  let c := s.canvas.clearRect 0 0 s.canvas.width s.canvas.height
  match s.currentImage with
  | none => { s with canvas := c }
  | some img =>
    let t := displayTransform c.width c.height img.width img.height
    { s with canvas := c.drawImage img t.offsetX t.offsetY t.scaledWidth t.scaledHeight }

/-- The file `loadSelectedImage` starts reading when `photoSelect.value` is
`selected` (lines 35-44): none for the empty value or an unknown name. -/
def fileToLoad (s : State) : Option LocalPhoto :=
  if s.selected = "" then none
  else s.uploadedPhotos.find? (fun photo => photo.name == s.selected)

/-- `loadSelectedImage` (lines 34-55) up to the start of the asynchronous read. -/
def loadSelectedImage (s : State) : State :=
  let selected := s.selected
  if selected = "" then
    resetCanvas { s with currentImage := none }
  else
    match s.uploadedPhotos.find? (fun photo => photo.name == selected) with
    | none => s
    | some file => { s with loading := s.loading ++ [file] }

/-- The `img.onload` callback (lines 48-51) of the `k`-th load in flight; `none`
when there is no such load. -/
def imgOnload (s : State) (k : Nat) : Option State :=
  match s.loading[k]? with
  | none => none
  | some file =>
    some (resetCanvas { s with currentImage := some (decodeImage file),
                               loading := s.loading.eraseIdx k })

/-- The `change` handler of `photoInput` (lines 57-67).  `photoSelect` is a
drop-down: once its options are rebuilt its value is that of the first option,
or the empty string when there is none (the handler relies on it when it calls
`loadSelectedImage` right after rebuilding the options, line 66). -/
def photoInputChange (s : State) (files : List LocalPhoto) : State :=
  let names := files.map (fun file => file.name)
  loadSelectedImage
    { s with uploadedPhotos := files, options := names, selected := names.headD "" }

/-- The `change` handler of `photoSelect` (line 69), the user having picked the
option with value `value`. -/
def photoSelectChange (s : State) (value : String) : State :=
  loadSelectedImage { s with selected := value }

/-- The `mousedown` handler (lines 71-76). -/
def mousedown (s : State) (offsetX offsetY : Int) : State :=
  match s.currentImage with
  | none => s
  | some _ =>
    { s with drawing := true, canvas := (s.canvas.beginPath).moveTo offsetX offsetY }

/-- The `mousemove` handler (lines 78-82). -/
def mousemove (s : State) (offsetX offsetY : Int) : State :=
  if !s.drawing then s
  else { s with canvas := (s.canvas.lineTo offsetX offsetY).stroke }

/-- The `mouseup` handler (lines 84-86). -/
def mouseup (s : State) : State :=
  { s with drawing := false }

/-- The `mouseleave` handler (lines 88-90). -/
def mouseleave (s : State) : State :=
  { s with drawing := false }

/-- The `click` handler of `clearMaskBtn` (lines 92-94). -/
def clearMaskClick (s : State) : State :=
  resetCanvas s

/-- What `maskCanvas.toBlob` serialises: the bitmap as it is at the call. -/
def exportMask (s : State) : List Paint :=
  s.canvas.painted

/-- `startJobBtn` click, lines 97-106: up to the `await fetch`. -/
def startJobClick (s : State) : State × Option Request :=
  if s.uploadedPhotos.length = 0 then
    ({ s with resultOutput := "Select photos before creating a job." }, none)
  else
    ({ s with resultOutput := "Uploading..." },
      some { url := "/jobs", body := Body.files "files" s.uploadedPhotos })

/-- `startJobBtn` click, lines 107-115: from the response on. -/
def startJobResponse (s : State) (response : Response JobData) : State :=
  if !response.ok then
    { s with resultOutput := "Upload failed." }
  else
    let data := response.json
    { s with jobId := some data.job_id, jobPhotos := data.photos,
             runEstimateDisabled := false,
             resultOutput := "Job " ++ data.job_id ++ " created." }

/-- The whole `startJobBtn` handler with no other event in between: the final
state and the requests issued. -/
def startJob (s : State) (response : Response JobData) : State × List Request :=
  match startJobClick s with
  | (s1, none) => (s1, [])
  | (s1, some request) => (startJobResponse s1 response, [request])

/-- Lines 128-129 of the save-mask handler for the local name `name`. -/
def resolveJobPhoto (s : State) (name : String) : Option JobPhoto :=
  let photoIndex := findIndex (fun file : LocalPhoto => file.name == name) s.uploadedPhotos
  arrayGet s.jobPhotos photoIndex

/-- `saveMaskBtn` click, lines 119-134: up to the `await` of `toBlob`.  When the
checks pass the handler goes on with the `jobPhoto` it found and the blob. -/
def saveMaskClick (s : State) : State × Option (JobPhoto × List Paint) :=
  if !truthy s.jobId then
    ({ s with resultOutput := "Create a job first." }, none)
  else
    let selected := s.selected
    if selected = "" then
      ({ s with resultOutput := "Select a photo before saving a mask." }, none)
    else
      let photoIndex :=
        findIndex (fun file : LocalPhoto => file.name == selected) s.uploadedPhotos
      match arrayGet s.jobPhotos photoIndex with
      | none => ({ s with resultOutput := "Unable to match photo to job." }, none)
      | some jobPhoto => (s, some (jobPhoto, exportMask s))

/-- `saveMaskBtn` click, lines 135-137: the request built once the blob is
there. -/
def saveMaskRequest (s : State) (jobPhoto : JobPhoto) (blob : List Paint) : Request :=
  { url := "/jobs/" ++ jsString s.jobId ++ "/mask/" ++ jobPhoto.photo_id,
    body := Body.blob "file" (jobPhoto.photo_id ++ ".png") blob }

/-- `saveMaskBtn` click, lines 138-142: from the response on. -/
def saveMaskResponse (s : State) (response : Response Unit) : State :=
  if !response.ok then
    { s with resultOutput := "Mask upload failed." }
  else
    { s with resultOutput := "Mask saved." }

/-- The whole `saveMaskBtn` handler with no other event in between. -/
def saveMask (s : State) (response : Response Unit) : State × List Request :=
  match saveMaskClick s with
  | (s1, none) => (s1, [])
  | (s1, some (jobPhoto, blob)) =>
    (saveMaskResponse s1 response, [saveMaskRequest s1 jobPhoto blob])

/-- `runEstimateBtn` click, lines 146-151: up to the `await fetch`. -/
def runEstimateClick (s : State) : State × Option Request :=
  if !truthy s.jobId then
    ({ s with resultOutput := "Create a job first." }, none)
  else
    ({ s with resultOutput := "Estimating..." },
      some { url := "/jobs/" ++ jsString s.jobId ++ "/estimate?debug=true",
             body := Body.empty })

/-- `runEstimateBtn` click, lines 152-157: from the response on; the body is
given as the text `JSON.stringify(data, null, 2)` produces. -/
def runEstimateResponse (s : State) (response : Response String) : State :=
  if !response.ok then
    { s with resultOutput := "Estimate failed." }
  else
    { s with resultOutput := response.json }

/-- The whole `runEstimateBtn` handler with no other event in between. -/
def runEstimate (s : State) (response : Response String) : State × List Request :=
  match runEstimateClick s with
  | (s1, none) => (s1, [])
  | (s1, some request) => (runEstimateResponse s1 response, [request])

/-! ### Overlapping photo selections

The two events of a photo selection: a selection that starts a load, and the
`onload` of one of the loads in flight. -/

/-- An event of the selection workflow. -/
inductive SelectEvent where
  /-- the user picks the option with this value and `loadSelectedImage` starts
  a read for it -/
  | initiated (value : String)
  /-- `img.onload` of the `k`-th load in flight fires -/
  | completed (k : Nat)
  deriving DecidableEq, Repr

/-- One step of the selection workflow; `none` when the event cannot happen in
`s` (the selection starts no read, or there is no `k`-th load in flight). -/
def selectStep (s : State) : SelectEvent → Option State
  | SelectEvent.initiated value =>
    match fileToLoad { s with selected := value } with
    | none => none
    | some _ => some (photoSelectChange s value)
  | SelectEvent.completed k => imgOnload s k

/-- The image of the selection an event initiates, if it initiates one. -/
def initiatedImage (s : State) : SelectEvent → Option Image
  | SelectEvent.initiated value =>
    (fileToLoad { s with selected := value }).map decodeImage
  | SelectEvent.completed _ => none

/-- Runs a sequence of events from `s`.  Next to the state it keeps the image
of the most recently initiated selection, starting from `latest`. -/
def selectRun (s : State) (latest : Option Image) :
    List SelectEvent → Option (State × Option Image)
  | [] => some (s, latest)
  | e :: es =>
    match selectStep s e with
    | none => none
    | some s1 => selectRun s1 ((initiatedImage s e).orElse (fun _ => latest)) es

/-- The property the run keeps when loads complete in initiation order: while
loads are in flight the newest of them is the most recently initiated selection;
when none is, the active image is that of the most recently initiated selection
(if any selection was initiated). -/
def latestWins (s : State) (latest : Option Image) : Prop :=
  match s.loading.getLast? with
  | some file => latest = some (decodeImage file)
  | none => latest = none ∨ s.currentImage = latest

instance (s : State) (latest : Option Image) : Decidable (latestWins s latest) := by
  unfold latestWins
  cases s.loading.getLast? <;> exact inferInstance

/-- Every completion in the sequence is that of the oldest load in flight. -/
def inInitiationOrder : List SelectEvent → Bool
  | [] => true
  | SelectEvent.initiated _ :: es => inInitiationOrder es
  | SelectEvent.completed k :: es => k == 0 && inInitiationOrder es

end Backend

/-! ## `frontend/static/app.js` -/

namespace Frontend

/-- Body of a successful `POST /jobs` response as this script reads it: `photos`
may be missing (`data.photos || []`). -/
structure JobData where
  job_id : String
  photos : Option (List JobPhoto)
  deriving DecidableEq, Repr

/-- One row built by `createMaskRow`: the photo it closes over, its label, the
files of its file input and its button. -/
structure MaskRow where
  photo : JobPhoto
  label : String
  inputFiles : List LocalPhoto
  buttonText : String
  buttonDisabled : Bool
  deriving DecidableEq, Repr

/-- The module variables (lines 11-12) and the parts of the DOM the handlers
use; `alerts` collects the `alert` messages shown. -/
structure State where
  currentJobId : Option String
  photoEntries : List JobPhoto
  /-- `photoInput.files` -/
  photoInputFiles : List LocalPhoto
  jobStatus : String
  maskList : List MaskRow
  maskSectionHidden : Bool
  estimateSectionHidden : Bool
  estimateOutput : String
  /-- `debugToggle.checked` -/
  debugChecked : Bool
  alerts : List String
  deriving DecidableEq, Repr

/-- `createMaskRow` (lines 14-55), the row as it is when created. -/
def createMaskRow (photo : JobPhoto) : MaskRow :=
  { photo := photo,
    label := if truthy photo.filename then jsString photo.filename else photo.photo_id,
    inputFiles := [], buttonText := "Upload mask", buttonDisabled := false }

/-- Mask-row button click, lines 28-39: up to the `await fetch`. -/
def maskUploadClick (s : State) (row : Nat) : State × Option Request :=
  match s.maskList[row]? with
  | none => (s, none)
  | some r =>
    match r.inputFiles with
    | [] => ({ s with alerts := s.alerts ++ ["Select a mask image first."] }, none)
    | file :: _ =>
      (s, some { url := "/jobs/" ++ jsString s.currentJobId ++ "/mask/" ++ r.photo.photo_id,
                 body := Body.files "mask" [file] })

/-- Mask-row button click, lines 41-47: from the response on. -/
def maskUploadResponse (s : State) (row : Nat) (response : Response Unit) : State :=
  if !response.ok then
    { s with alerts := s.alerts ++ ["Failed to upload mask."] }
  else
    let done : MaskRow → MaskRow :=
      fun r => { r with buttonText := "Mask uploaded", buttonDisabled := true }
    { s with maskList := s.maskList.modify done row }

/-- The whole mask-row button handler with no other event in between. -/
def maskUpload (s : State) (row : Nat) (response : Response Unit) : State × List Request :=
  match maskUploadClick s row with
  | (s1, none) => (s1, [])
  | (s1, some request) => (maskUploadResponse s1 row response, [request])

/-- `uploadBtn` click, lines 58-71: up to the `await fetch`. -/
def uploadClick (s : State) : State × Option Request :=
  if s.photoInputFiles.length = 0 then
    ({ s with alerts := s.alerts ++ ["Please select at least one photo."] }, none)
  else
    ({ s with jobStatus := "Uploading..." },
      some { url := "/jobs", body := Body.files "photos" s.photoInputFiles })

/-- `uploadBtn` click, lines 73-86: from the response on. -/
def uploadResponse (s : State) (response : Response JobData) : State :=
  if !response.ok then
    { s with jobStatus := "Failed to create job." }
  else
    let data := response.json
    let photoEntries := data.photos.getD []
    { s with currentJobId := some data.job_id, photoEntries := photoEntries,
             jobStatus := "Job created: " ++ data.job_id,
             maskList := photoEntries.map createMaskRow,
             maskSectionHidden := false, estimateSectionHidden := false }

/-- The whole `uploadBtn` handler with no other event in between. -/
def upload (s : State) (response : Response JobData) : State × List Request :=
  match uploadClick s with
  | (s1, none) => (s1, [])
  | (s1, some request) => (uploadResponse s1 response, [request])

/-- `estimateBtn` click, lines 90-102: up to the `await fetch`. -/
def estimateClick (s : State) : State × Option Request :=
  if !truthy s.currentJobId then
    ({ s with alerts := s.alerts ++ ["Create a job first."] }, none)
  else
    ({ s with estimateOutput := "Estimating..." },
      some { url := "/jobs/" ++ jsString s.currentJobId ++ "/estimate",
             body := Body.form "debug" (if s.debugChecked then "true" else "false") })

/-- `estimateBtn` click, lines 104-110: from the response on; the body is given
as the text `JSON.stringify(data, null, 2)` produces. -/
def estimateResponse (s : State) (response : Response String) : State :=
  if !response.ok then
    { s with estimateOutput := "Failed to estimate." }
  else
    { s with estimateOutput := response.json }

/-- The whole `estimateBtn` handler with no other event in between. -/
def estimate (s : State) (response : Response String) : State × List Request :=
  match estimateClick s with
  | (s1, none) => (s1, [])
  | (s1, some request) => (estimateResponse s1 response, [request])

end Frontend

/-! ## The contract in the words of the specification -/

/-- The raster "rendering the base image alone at the computed transform" on a
blank `W × H` surface: nothing when there is no image, else the one image drawn
on the blank surface at the offsets and scaled size of the computed transform. -/
def baseImageRaster (W H : Nat) : Option Image → List Paint
  | none => []
  | some img =>
    let blank : Canvas := { width := W, height := H, painted := [], path := [] }
    let t := displayTransform W H img.width img.height
    (blank.drawImage img t.offsetX t.offsetY t.scaledWidth t.scaledHeight).painted

/-! ## Concrete data used to evaluate the handlers -/

namespace Example

/-- A wide photo named `a.png`. -/
def photoA : LocalPhoto := { name := "a.png", bytes := 1, width := 1200, height := 400 }

/-- A tall photo named `b.png`. -/
def photoB : LocalPhoto := { name := "b.png", bytes := 2, width := 300, height := 400 }

/-- A photo named `c.png`. -/
def photoC : LocalPhoto := { name := "c.png", bytes := 3, width := 600, height := 400 }

/-- Another file that is also named `a.png`. -/
def photoA2 : LocalPhoto := { name := "a.png", bytes := 4, width := 640, height := 480 }

/-- Server record `p1`. -/
def p1 : JobPhoto := { photo_id := "p1", filename := none }

/-- Server record `p2`. -/
def p2 : JobPhoto := { photo_id := "p2", filename := none }

/-- A fresh page on a 600 × 400 canvas after the files `files` were picked. -/
def picked (files : List LocalPhoto) : Backend.State :=
  { Backend.State.init 600 400 with
    uploadedPhotos := files, options := files.map (fun file => file.name),
    selected := (files.map (fun file => file.name)).headD "" }

/-- The job-creation response `J1` with the given photos. -/
def jobJ1 (photos : List JobPhoto) : Response JobData :=
  { ok := true, json := { job_id := "J1", photos := photos } }

/-- The other page with a job `J1` whose single photo has a mask file chosen. -/
def frontPage : Frontend.State :=
  { currentJobId := some "J1", photoEntries := [p1], photoInputFiles := [photoA],
    jobStatus := "Job created: J1",
    maskList := [{ Frontend.createMaskRow p1 with inputFiles := [photoB] }],
    maskSectionHidden := false, estimateSectionHidden := false, estimateOutput := "",
    debugChecked := true, alerts := [] }

/-- A page on which job `J1` with photo `p1` exists for the picked `a.png`. -/
def withJob : Backend.State :=
  { picked [photoA] with jobId := some "J1", jobPhotos := [p1] }

end Example

/-! ## Letterboxing transform -/

theorem roundHalfEven_err (m : ℚ) : |(roundHalfEven m : ℚ) - m| ≤ 1 / 2 := by
  have hlo : (⌊m⌋ : ℚ) ≤ m := Int.floor_le m
  have hhi : m < (⌊m⌋ : ℚ) + 1 := Int.lt_floor_add_one m
  unfold roundHalfEven
  simp only []
  rw [abs_sub_le_iff]
  split_ifs with h1 h2 h3
  · constructor <;> linarith
  · push_cast
    constructor <;> linarith
  · constructor <;> linarith
  · push_cast
    constructor <;> linarith

theorem roundHalfEven_eq (m : ℚ) (n : ℤ) (h1 : (n : ℚ) - 1 / 2 < m)
    (h2 : m < (n : ℚ) + 1 / 2) : roundHalfEven m = n := by
  unfold roundHalfEven
  simp only []
  rcases le_or_lt (n : ℚ) m with hnm | hnm
  · have hf : ⌊m⌋ = n := Int.floor_eq_iff.mpr ⟨hnm, by linarith⟩
    rw [hf]
    rw [if_pos (by linarith)]
  · have hf : ⌊m⌋ = n - 1 :=
      Int.floor_eq_iff.mpr ⟨by push_cast; linarith, by push_cast; linarith⟩
    rw [hf]
    rw [if_neg (by push_cast; linarith), if_pos (by push_cast; linarith)]
    ring

/-- Every rounding is off by at most `2^-53` of the exact value. -/
theorem roundDouble_err (q : ℚ) : |roundDouble q - q| ≤ |q| * (1 / 2 ^ 53) := by
  unfold roundDouble
  by_cases hq : q = 0
  · simp [hq]
  · simp only [hq, if_false]
    have habs : 0 < |q| := abs_pos.mpr hq
    have hlog : ((2 : ℕ) : ℚ) ^ Int.log 2 |q| ≤ |q| := Int.zpow_log_le_self (by norm_num) habs
    rw [Nat.cast_ofNat] at hlog
    set e : ℤ := Int.log 2 |q| - 52 with he
    have hpos : (0 : ℚ) < 2 ^ e := zpow_pos (by norm_num) e
    have hsplit : (2 : ℚ) ^ Int.log 2 |q| = 2 ^ e * 2 ^ (52 : ℤ) := by
      rw [← zpow_add₀ (by norm_num : (2 : ℚ) ≠ 0)]
      congr 1
      omega
    have herr := roundHalfEven_err (q / 2 ^ e)
    have hfac : (roundHalfEven (q / 2 ^ e) : ℚ) * 2 ^ e - q
        = ((roundHalfEven (q / 2 ^ e) : ℚ) - q / 2 ^ e) * 2 ^ e := by
      field_simp
    rw [hfac, abs_mul, abs_of_pos hpos]
    have h52 : (2 : ℚ) ^ (52 : ℤ) = 2 ^ 52 := by norm_cast
    rw [hsplit, h52] at hlog
    calc |(roundHalfEven (q / 2 ^ e) : ℚ) - q / 2 ^ e| * 2 ^ e
        ≤ 1 / 2 * 2 ^ e := mul_le_mul_of_nonneg_right herr hpos.le
      _ = 2 ^ e * 2 ^ 52 * (1 / 2 ^ 53) := by ring
      _ ≤ |q| * (1 / 2 ^ 53) := mul_le_mul_of_nonneg_right hlog (by positivity)

/-- Evaluation of a rounding from its binade `2^k ≤ |q| < 2^(k+1)` and the
integer `n` nearest to the scaled value. -/
theorem roundDouble_eq_of (q : ℚ) (k n : ℤ) (hk1 : (2 : ℚ) ^ k ≤ |q|)
    (hk2 : |q| < 2 ^ (k + 1)) (hn1 : (n : ℚ) - 1 / 2 < q / 2 ^ (k - 52))
    (hn2 : q / 2 ^ (k - 52) < (n : ℚ) + 1 / 2) :
    roundDouble q = n * 2 ^ (k - 52) := by
  have habs : 0 < |q| := lt_of_lt_of_le (zpow_pos (by norm_num) k) hk1
  have hq : q ≠ 0 := abs_pos.mp habs
  have hlog : Int.log 2 |q| = k := by
    have h1 : k ≤ Int.log 2 |q| :=
      (Int.zpow_le_iff_le_log (by norm_num) habs).mp (by rw [Nat.cast_ofNat]; exact hk1)
    have h2 : Int.log 2 |q| < k + 1 :=
      (Int.lt_zpow_iff_log_lt (by norm_num) habs).mp (by rw [Nat.cast_ofNat]; exact hk2)
    omega
  unfold roundDouble
  simp only [hq, if_false, hlog]
  rw [roundHalfEven_eq _ n hn1 hn2]

theorem roundDouble_bounds_of_nonneg (q : ℚ) (hq : 0 ≤ q) :
    q * (1 - 1 / 2 ^ 53) ≤ roundDouble q ∧ roundDouble q ≤ q * (1 + 1 / 2 ^ 53) := by
  have h := roundDouble_err q
  rw [abs_of_nonneg hq, abs_le] at h
  constructor <;> linarith [h.1, h.2]

theorem roundDouble_nonneg (q : ℚ) (hq : 0 ≤ q) : 0 ≤ roundDouble q := by
  have h := (roundDouble_bounds_of_nonneg q hq).1
  have : 0 ≤ q * (1 - 1 / 2 ^ 53) := mul_nonneg hq (by norm_num)
  linarith

/-- The scale is non-negative and at most either rounded quotient. -/
theorem scale_bounds (W H w h : ℚ) (hW : 0 ≤ W) (hH : 0 ≤ H) (hw : 0 < w) (hh : 0 < h) :
    0 ≤ (displayTransform W H w h).scale ∧
    w * (displayTransform W H w h).scale ≤ W * (1 + 1 / 2 ^ 53) ∧
    h * (displayTransform W H w h).scale ≤ H * (1 + 1 / 2 ^ 53) ∧
    (W * (1 - 1 / 2 ^ 53) ≤ w * (displayTransform W H w h).scale ∨
      H * (1 - 1 / 2 ^ 53) ≤ h * (displayTransform W H w h).scale) := by
  have hqW : 0 ≤ W / w := div_nonneg hW hw.le
  have hqH : 0 ≤ H / h := div_nonneg hH hh.le
  obtain ⟨hWlo, hWhi⟩ := roundDouble_bounds_of_nonneg (W / w) hqW
  obtain ⟨hHlo, hHhi⟩ := roundDouble_bounds_of_nonneg (H / h) hqH
  have hWw : w * (W / w) = W := by field_simp
  have hHh : h * (H / h) = H := by field_simp
  show 0 ≤ min (roundDouble (W / w)) (roundDouble (H / h)) ∧
    w * min (roundDouble (W / w)) (roundDouble (H / h)) ≤ W * (1 + 1 / 2 ^ 53) ∧
    h * min (roundDouble (W / w)) (roundDouble (H / h)) ≤ H * (1 + 1 / 2 ^ 53) ∧
    (W * (1 - 1 / 2 ^ 53) ≤ w * min (roundDouble (W / w)) (roundDouble (H / h)) ∨
      H * (1 - 1 / 2 ^ 53) ≤ h * min (roundDouble (W / w)) (roundDouble (H / h)))
  refine ⟨le_min (roundDouble_nonneg _ hqW) (roundDouble_nonneg _ hqH), ?_, ?_, ?_⟩
  · calc w * min (roundDouble (W / w)) (roundDouble (H / h))
        ≤ w * roundDouble (W / w) := mul_le_mul_of_nonneg_left (min_le_left _ _) hw.le
      _ ≤ w * (W / w * (1 + 1 / 2 ^ 53)) := mul_le_mul_of_nonneg_left hWhi hw.le
      _ = W * (1 + 1 / 2 ^ 53) := by rw [← mul_assoc, hWw]
  · calc h * min (roundDouble (W / w)) (roundDouble (H / h))
        ≤ h * roundDouble (H / h) := mul_le_mul_of_nonneg_left (min_le_right _ _) hh.le
      _ ≤ h * (H / h * (1 + 1 / 2 ^ 53)) := mul_le_mul_of_nonneg_left hHhi hh.le
      _ = H * (1 + 1 / 2 ^ 53) := by rw [← mul_assoc, hHh]
  · rcases le_total (roundDouble (W / w)) (roundDouble (H / h)) with hle | hle
    · left
      rw [min_eq_left hle]
      calc W * (1 - 1 / 2 ^ 53) = w * (W / w * (1 - 1 / 2 ^ 53)) := by rw [← mul_assoc, hWw]
        _ ≤ w * roundDouble (W / w) := mul_le_mul_of_nonneg_left hWlo hw.le
    · right
      rw [min_eq_right hle]
      calc H * (1 - 1 / 2 ^ 53) = h * (H / h * (1 - 1 / 2 ^ 53)) := by rw [← mul_assoc, hHh]
        _ ≤ h * roundDouble (H / h) := mul_le_mul_of_nonneg_left hHlo hh.le

/-- A rounded product `roundDouble p` with `0 ≤ p ≤ L (1 + 2^-53)` stays below
`L (1 + 2^-51)`, and is above `L (1 - 2^-51)` when `L (1 - 2^-53) ≤ p`. -/
theorem rounded_size_bounds (p L : ℚ) (hp : 0 ≤ p) (hL : 0 ≤ L)
    (hhi : p ≤ L * (1 + 1 / 2 ^ 53)) :
    0 ≤ roundDouble p ∧ roundDouble p ≤ L * (1 + 1 / 2 ^ 51) ∧
    (L * (1 - 1 / 2 ^ 53) ≤ p → L * (1 - 1 / 2 ^ 51) ≤ roundDouble p) := by
  obtain ⟨hlo, hup⟩ := roundDouble_bounds_of_nonneg p hp
  refine ⟨roundDouble_nonneg p hp, ?_, ?_⟩
  · have h1 : p * (1 + 1 / 2 ^ 53) ≤ L * (1 + 1 / 2 ^ 53) * (1 + 1 / 2 ^ 53) :=
      mul_le_mul_of_nonneg_right hhi (by norm_num)
    have h2 : L * (1 + 1 / 2 ^ 53) * (1 + 1 / 2 ^ 53) ≤ L * (1 + 1 / 2 ^ 51) := by
      rw [mul_assoc]
      exact mul_le_mul_of_nonneg_left (by norm_num) hL
    linarith
  · intro hge
    have h1 : L * (1 - 1 / 2 ^ 53) * (1 - 1 / 2 ^ 53) ≤ p * (1 - 1 / 2 ^ 53) :=
      mul_le_mul_of_nonneg_right hge (by norm_num)
    have h2 : L * (1 - 1 / 2 ^ 51) ≤ L * (1 - 1 / 2 ^ 53) * (1 - 1 / 2 ^ 53) := by
      rw [mul_assoc]
      exact mul_le_mul_of_nonneg_left (by norm_num) hL
    linarith

/-! ### The transform at three image sizes on the 600 × 400 canvas -/

theorem displayTransform_600x530 :
    displayTransform 600 400 600 530 =
      { scale := (3398943114996601 / 4503599627370496),
        scaledWidth := (1991568231443321 / 4398046511104),
        scaledHeight := (7036874417766401 / 17592186044416),
        offsetX := (647259675219079 / 8796093022208),
        offsetY := (-1 / 35184372088832) } := by
  unfold displayTransform
  simp only []
  rw [(show roundDouble (600 / 600)
        = 1 by
      rw [roundDouble_eq_of _ (0) (4503599627370496)
        (by norm_num [abs_of_pos]) (by norm_num [abs_of_pos]) (by norm_num) (by norm_num)]
      norm_num)]
  rw [(show roundDouble (400 / 530)
        = (3398943114996601 / 4503599627370496) by
      rw [roundDouble_eq_of _ (-1) (6797886229993202)
        (by norm_num [abs_of_pos]) (by norm_num [abs_of_pos]) (by norm_num) (by norm_num)]
      norm_num)]
  rw [(show min (1 : ℚ) (3398943114996601 / 4503599627370496)
        = (3398943114996601 / 4503599627370496) by norm_num)]
  rw [(show roundDouble (600 * (3398943114996601 / 4503599627370496))
        = (1991568231443321 / 4398046511104) by
      rw [roundDouble_eq_of _ (8) (7966272925773284)
        (by norm_num [abs_of_pos]) (by norm_num [abs_of_pos]) (by norm_num) (by norm_num)]
      norm_num)]
  rw [(show roundDouble (530 * (3398943114996601 / 4503599627370496))
        = (7036874417766401 / 17592186044416) by
      rw [roundDouble_eq_of _ (8) (7036874417766401)
        (by norm_num [abs_of_pos]) (by norm_num [abs_of_pos]) (by norm_num) (by norm_num)]
      norm_num)]
  rw [(show roundDouble (600 - (1991568231443321 / 4398046511104))
        = (647259675219079 / 4398046511104) by
      rw [roundDouble_eq_of _ (7) (5178077401752632)
        (by norm_num [abs_of_pos]) (by norm_num [abs_of_pos]) (by norm_num) (by norm_num)]
      norm_num)]
  rw [(show roundDouble ((647259675219079 / 4398046511104) / 2)
        = (647259675219079 / 8796093022208) by
      rw [roundDouble_eq_of _ (6) (5178077401752632)
        (by norm_num [abs_of_pos]) (by norm_num [abs_of_pos]) (by norm_num) (by norm_num)]
      norm_num)]
  rw [(show roundDouble (400 - (7036874417766401 / 17592186044416))
        = (-1 / 17592186044416) by
      rw [roundDouble_eq_of _ (-44) (-4503599627370496)
        (by norm_num [abs_of_neg]) (by norm_num [abs_of_neg]) (by norm_num) (by norm_num)]
      norm_num)]
  rw [(show roundDouble ((-1 / 17592186044416) / 2)
        = (-1 / 35184372088832) by
      rw [roundDouble_eq_of _ (-45) (-4503599627370496)
        (by norm_num [abs_of_neg]) (by norm_num [abs_of_neg]) (by norm_num) (by norm_num)]
      norm_num)]

theorem displayTransform_2316x3088 :
    displayTransform 600 400 2316 3088 =
      { scale := (4666942619036783 / 36028797018963968),
        scaledWidth := 300,
        scaledHeight := (7036874417766399 / 17592186044416),
        offsetX := 150,
        offsetY := (1 / 35184372088832) } := by
  unfold displayTransform
  simp only []
  rw [(show roundDouble (600 / 2316)
        = (4666942619036783 / 18014398509481984) by
      rw [roundDouble_eq_of _ (-2) (4666942619036783)
        (by norm_num [abs_of_pos]) (by norm_num [abs_of_pos]) (by norm_num) (by norm_num)]
      norm_num)]
  rw [(show roundDouble (400 / 3088)
        = (4666942619036783 / 36028797018963968) by
      rw [roundDouble_eq_of _ (-3) (4666942619036783)
        (by norm_num [abs_of_pos]) (by norm_num [abs_of_pos]) (by norm_num) (by norm_num)]
      norm_num)]
  rw [(show min ((4666942619036783 / 18014398509481984) : ℚ) (4666942619036783 / 36028797018963968)
        = (4666942619036783 / 36028797018963968) by norm_num)]
  rw [(show roundDouble (2316 * (4666942619036783 / 36028797018963968))
        = 300 by
      rw [roundDouble_eq_of _ (8) (5277655813324800)
        (by norm_num [abs_of_pos]) (by norm_num [abs_of_pos]) (by norm_num) (by norm_num)]
      norm_num)]
  rw [(show roundDouble (3088 * (4666942619036783 / 36028797018963968))
        = (7036874417766399 / 17592186044416) by
      rw [roundDouble_eq_of _ (8) (7036874417766399)
        (by norm_num [abs_of_pos]) (by norm_num [abs_of_pos]) (by norm_num) (by norm_num)]
      norm_num)]
  rw [(show roundDouble (600 - 300)
        = 300 by
      rw [roundDouble_eq_of _ (8) (5277655813324800)
        (by norm_num [abs_of_pos]) (by norm_num [abs_of_pos]) (by norm_num) (by norm_num)]
      norm_num)]
  rw [(show roundDouble (300 / 2)
        = 150 by
      rw [roundDouble_eq_of _ (7) (5277655813324800)
        (by norm_num [abs_of_pos]) (by norm_num [abs_of_pos]) (by norm_num) (by norm_num)]
      norm_num)]
  rw [(show roundDouble (400 - (7036874417766399 / 17592186044416))
        = (1 / 17592186044416) by
      rw [roundDouble_eq_of _ (-44) (4503599627370496)
        (by norm_num [abs_of_pos]) (by norm_num [abs_of_pos]) (by norm_num) (by norm_num)]
      norm_num)]
  rw [(show roundDouble ((1 / 17592186044416) / 2)
        = (1 / 35184372088832) by
      rw [roundDouble_eq_of _ (-45) (4503599627370496)
        (by norm_num [abs_of_pos]) (by norm_num [abs_of_pos]) (by norm_num) (by norm_num)]
      norm_num)]

theorem displayTransform_640x480 :
    displayTransform 600 400 640 480 =
      { scale := (7505999378950827 / 9007199254740992),
        scaledWidth := (4691249611844267 / 8796093022208),
        scaledHeight := 400,
        offsetX := (586406201480533 / 17592186044416),
        offsetY := 0 } := by
  unfold displayTransform
  simp only []
  rw [(show roundDouble (600 / 640)
        = (15 / 16) by
      rw [roundDouble_eq_of _ (-1) (8444249301319680)
        (by norm_num [abs_of_pos]) (by norm_num [abs_of_pos]) (by norm_num) (by norm_num)]
      norm_num)]
  rw [(show roundDouble (400 / 480)
        = (7505999378950827 / 9007199254740992) by
      rw [roundDouble_eq_of _ (-1) (7505999378950827)
        (by norm_num [abs_of_pos]) (by norm_num [abs_of_pos]) (by norm_num) (by norm_num)]
      norm_num)]
  rw [(show min ((15 / 16) : ℚ) (7505999378950827 / 9007199254740992)
        = (7505999378950827 / 9007199254740992) by norm_num)]
  rw [(show roundDouble (640 * (7505999378950827 / 9007199254740992))
        = (4691249611844267 / 8796093022208) by
      rw [roundDouble_eq_of _ (9) (4691249611844267)
        (by norm_num [abs_of_pos]) (by norm_num [abs_of_pos]) (by norm_num) (by norm_num)]
      norm_num)]
  rw [(show roundDouble (480 * (7505999378950827 / 9007199254740992))
        = 400 by
      rw [roundDouble_eq_of _ (8) (7036874417766400)
        (by norm_num [abs_of_pos]) (by norm_num [abs_of_pos]) (by norm_num) (by norm_num)]
      norm_num)]
  rw [(show roundDouble (600 - (4691249611844267 / 8796093022208))
        = (586406201480533 / 8796093022208) by
      rw [roundDouble_eq_of _ (6) (4691249611844264)
        (by norm_num [abs_of_pos]) (by norm_num [abs_of_pos]) (by norm_num) (by norm_num)]
      norm_num)]
  rw [(show roundDouble ((586406201480533 / 8796093022208) / 2)
        = (586406201480533 / 17592186044416) by
      rw [roundDouble_eq_of _ (5) (4691249611844264)
        (by norm_num [abs_of_pos]) (by norm_num [abs_of_pos]) (by norm_num) (by norm_num)]
      norm_num)]
  rw [(show roundDouble (400 - 400) = 0 by
      have hz : (400 - 400 : ℚ) = 0 := by norm_num
      rw [hz]
      simp [roundDouble])]
  rw [(show roundDouble (0 / 2) = 0 by
      have hz : (0 / 2 : ℚ) = 0 := by norm_num
      rw [hz]
      simp [roundDouble])]

/-! ### What holds of the computed transform -/

/-- An offset `roundDouble (roundDouble (L - size) / 2)` for a size with
`0 ≤ size ≤ L (1 + 2^-51)`: bounded below, on the far side and in its symmetry
by `2^-51` of `L`. -/
theorem rounded_offset_bounds (L size : ℚ) (hL : 0 ≤ L) (h0 : 0 ≤ size)
    (hhi : size ≤ L * (1 + 1 / 2 ^ 51)) :
    -(L * (1 / 2 ^ 51)) ≤ roundDouble (roundDouble (L - size) / 2) ∧
    roundDouble (roundDouble (L - size) / 2) + size ≤ L * (1 + 1 / 2 ^ 51) ∧
    |L - roundDouble (roundDouble (L - size) / 2) - size
        - roundDouble (roundDouble (L - size) / 2)| ≤ L * (1 / 2 ^ 51) := by
  have hd : |L - size| ≤ L := by
    rw [abs_le]
    constructor <;> linarith
  have e1 : |roundDouble (L - size) - (L - size)| ≤ L * (1 / 2 ^ 53) :=
    le_trans (roundDouble_err (L - size))
      (mul_le_mul_of_nonneg_right hd (by norm_num))
  rw [abs_le] at e1
  have hr1 : |roundDouble (L - size) / 2| ≤ L * (1 + 1 / 2 ^ 53) / 2 := by
    rw [abs_le] at hd
    rw [abs_le]
    constructor <;> linarith [e1.1, e1.2, hd.1, hd.2]
  have e2 : |roundDouble (roundDouble (L - size) / 2) - roundDouble (L - size) / 2|
      ≤ L * (1 + 1 / 2 ^ 53) / 2 * (1 / 2 ^ 53) :=
    le_trans (roundDouble_err (roundDouble (L - size) / 2))
      (mul_le_mul_of_nonneg_right hr1 (by norm_num))
  rw [abs_le] at e2
  refine ⟨by linarith [e1.1, e2.1], by linarith [e1.2, e2.2], ?_⟩
  rw [abs_le]
  constructor <;> linarith [e1.1, e1.2, e2.1, e2.2]

/-- The two rounded sizes keep the ratio `w : h` up to `2^-51`. -/
theorem rounded_aspect (w h s : ℚ) (hw : 0 < w) (hh : 0 < h) (hs : 0 ≤ s) :
    |roundDouble (w * s) * h - roundDouble (h * s) * w|
      ≤ roundDouble (w * s) * h * (1 / 2 ^ 51) := by
  obtain ⟨hXlo, hXhi⟩ := roundDouble_bounds_of_nonneg (w * s) (mul_nonneg hw.le hs)
  obtain ⟨hYlo, hYhi⟩ := roundDouble_bounds_of_nonneg (h * s) (mul_nonneg hh.le hs)
  have hM : 0 ≤ w * s * h := mul_nonneg (mul_nonneg hw.le hs) hh.le
  have hA1 := mul_le_mul_of_nonneg_right hXlo hh.le
  have hA2 := mul_le_mul_of_nonneg_right hXhi hh.le
  have hB1 := mul_le_mul_of_nonneg_right hYlo hw.le
  have hB2 := mul_le_mul_of_nonneg_right hYhi hw.le
  have hsame : h * s * w = w * s * h := by ring
  have hA1' : w * s * h * (1 - 1 / 2 ^ 53) ≤ roundDouble (w * s) * h := by linarith
  have hA2' : roundDouble (w * s) * h ≤ w * s * h * (1 + 1 / 2 ^ 53) := by linarith
  have hB1' : w * s * h * (1 - 1 / 2 ^ 53) ≤ roundDouble (h * s) * w := by
    have : h * s * (1 - 1 / 2 ^ 53) * w = w * s * h * (1 - 1 / 2 ^ 53) := by ring
    linarith
  have hB2' : roundDouble (h * s) * w ≤ w * s * h * (1 + 1 / 2 ^ 53) := by
    have : h * s * (1 + 1 / 2 ^ 53) * w = w * s * h * (1 + 1 / 2 ^ 53) := by ring
    linarith
  rw [abs_le]
  constructor <;> linarith

/-- C5 as stated fails on the numbers the script computes: on the 600 × 400
canvas a 600 × 530 image gets a scaled height above 400, and a 2316 × 3088 image
gets a scaled size that equals the canvas on neither axis. -/
theorem displayTransform_exceeds_canvas :
    ¬ ((displayTransform 600 400 600 530).scaledHeight ≤ 400) ∧
    ¬ ((displayTransform 600 400 2316 3088).scaledWidth = 600 ∨
        (displayTransform 600 400 2316 3088).scaledHeight = 400) := by
  rw [displayTransform_600x530, displayTransform_2316x3088]
  norm_num

/-- C5 (amended): for canvas sizes `W, H > 0` and image sizes `w, h > 0`, the
scaled size `resetCanvas` computes in binary64 fits the canvas up to rounding
(`scaledWidth ≤ W (1 + 2^-51)`, `scaledHeight ≤ H (1 + 2^-51)`) and fills it on
one axis up to rounding (`scaledWidth ≥ W (1 - 2^-51)` or
`scaledHeight ≥ H (1 - 2^-51)`). -/
theorem displayTransform_fits_up_to_rounding (W H w h : ℚ) (hW : 0 < W) (hH : 0 < H)
    (hw : 0 < w) (hh : 0 < h) :
    (displayTransform W H w h).scaledWidth ≤ W * (1 + 1 / 2 ^ 51) ∧
    (displayTransform W H w h).scaledHeight ≤ H * (1 + 1 / 2 ^ 51) ∧
    (W * (1 - 1 / 2 ^ 51) ≤ (displayTransform W H w h).scaledWidth ∨
      H * (1 - 1 / 2 ^ 51) ≤ (displayTransform W H w h).scaledHeight) := by
  obtain ⟨hs, hsw, hsh, hfill⟩ := scale_bounds W H w h hW.le hH.le hw hh
  obtain ⟨_, hwhi, hwlo⟩ := rounded_size_bounds (w * (displayTransform W H w h).scale) W
    (mul_nonneg hw.le hs) hW.le hsw
  obtain ⟨_, hhhi, hhlo⟩ := rounded_size_bounds (h * (displayTransform W H w h).scale) H
    (mul_nonneg hh.le hs) hH.le hsh
  refine ⟨hwhi, hhhi, ?_⟩
  rcases hfill with hfill | hfill
  · exact Or.inl (hwlo hfill)
  · exact Or.inr (hhlo hfill)

theorem displayTransform_fits_up_to_rounding_witness :
    (displayTransform 600 400 600 530).scaledWidth ≤ 600 * (1 + 1 / 2 ^ 51) ∧
    (displayTransform 600 400 600 530).scaledHeight ≤ 400 * (1 + 1 / 2 ^ 51) ∧
    (600 * (1 - 1 / 2 ^ 51) ≤ (displayTransform 600 400 600 530).scaledWidth ∨
      400 * (1 - 1 / 2 ^ 51) ≤ (displayTransform 600 400 600 530).scaledHeight) :=
  displayTransform_fits_up_to_rounding 600 400 600 530 (by norm_num) (by norm_num)
    (by norm_num) (by norm_num)

/-- C6 as stated fails on the numbers the script computes: on the 600 × 400
canvas a 600 × 530 image gets a negative `offsetY` and a rectangle whose bottom
edge `offsetY + scaledHeight` lies below the canvas, and a 640 × 480 image gets
`scaledWidth * h ≠ scaledHeight * w`. -/
theorem displayTransform_leaves_canvas :
    ¬ (0 ≤ (displayTransform 600 400 600 530).offsetY) ∧
    ¬ ((displayTransform 600 400 600 530).offsetY
        + (displayTransform 600 400 600 530).scaledHeight ≤ 400) ∧
    ¬ ((displayTransform 600 400 640 480).scaledWidth * 480
        = (displayTransform 600 400 640 480).scaledHeight * 640) := by
  rw [displayTransform_600x530, displayTransform_640x480]
  norm_num

/-- C6 (amended): for canvas sizes `W, H > 0` and image sizes `w, h > 0`, the
rectangle `resetCanvas` computes in binary64 is inside the canvas, centered and
undistorted up to rounding, with `ε = 2^-51`: `offsetX ≥ -ε W`, `offsetY ≥ -ε H`,
`offsetX + scaledWidth ≤ (1 + ε) W`, `offsetY + scaledHeight ≤ (1 + ε) H`, the
left and right margins differ by at most `ε W` and the top and bottom margins by
at most `ε H`, and `scaledWidth * h` differs from `scaledHeight * w` by at most
`ε * scaledWidth * h`. -/
theorem displayTransform_centered_up_to_rounding (W H w h : ℚ) (hW : 0 < W) (hH : 0 < H)
    (hw : 0 < w) (hh : 0 < h) :
    -(W * (1 / 2 ^ 51)) ≤ (displayTransform W H w h).offsetX ∧
    -(H * (1 / 2 ^ 51)) ≤ (displayTransform W H w h).offsetY ∧
    (displayTransform W H w h).offsetX + (displayTransform W H w h).scaledWidth
      ≤ W * (1 + 1 / 2 ^ 51) ∧
    (displayTransform W H w h).offsetY + (displayTransform W H w h).scaledHeight
      ≤ H * (1 + 1 / 2 ^ 51) ∧
    |W - (displayTransform W H w h).offsetX - (displayTransform W H w h).scaledWidth
      - (displayTransform W H w h).offsetX| ≤ W * (1 / 2 ^ 51) ∧
    |H - (displayTransform W H w h).offsetY - (displayTransform W H w h).scaledHeight
      - (displayTransform W H w h).offsetY| ≤ H * (1 / 2 ^ 51) ∧
    |(displayTransform W H w h).scaledWidth * h
      - (displayTransform W H w h).scaledHeight * w|
      ≤ (displayTransform W H w h).scaledWidth * h * (1 / 2 ^ 51) := by
  obtain ⟨hs, hsw, hsh, _⟩ := scale_bounds W H w h hW.le hH.le hw hh
  obtain ⟨hw0, hwhi, _⟩ := rounded_size_bounds (w * (displayTransform W H w h).scale) W
    (mul_nonneg hw.le hs) hW.le hsw
  obtain ⟨hh0, hhhi, _⟩ := rounded_size_bounds (h * (displayTransform W H w h).scale) H
    (mul_nonneg hh.le hs) hH.le hsh
  obtain ⟨hx1, hx2, hx3⟩ := rounded_offset_bounds W
    (roundDouble (w * (displayTransform W H w h).scale)) hW.le hw0 hwhi
  obtain ⟨hy1, hy2, hy3⟩ := rounded_offset_bounds H
    (roundDouble (h * (displayTransform W H w h).scale)) hH.le hh0 hhhi
  exact ⟨hx1, hy1, hx2, hy2, hx3, hy3,
    rounded_aspect w h (displayTransform W H w h).scale hw hh hs⟩

theorem displayTransform_centered_up_to_rounding_witness :
    -(400 * (1 / 2 ^ 51)) ≤ (displayTransform 600 400 600 530).offsetY ∧
    (displayTransform 600 400 600 530).offsetY
      + (displayTransform 600 400 600 530).scaledHeight ≤ 400 * (1 + 1 / 2 ^ 51) :=
  ⟨(displayTransform_centered_up_to_rounding 600 400 600 530 (by norm_num) (by norm_num)
      (by norm_num) (by norm_num)).2.1,
    (displayTransform_centered_up_to_rounding 600 400 600 530 (by norm_num) (by norm_num)
      (by norm_num) (by norm_num)).2.2.2.1⟩

/-! ## Drawing surface -/

namespace Backend

theorem clearRect_whole (c : Canvas) :
    c.clearRect 0 0 c.width c.height = { c with painted := [] } := by
  simp [Canvas.clearRect]

theorem resetCanvas_eq (s : State) :
    resetCanvas s =
      { s with canvas := { s.canvas with
          painted := baseImageRaster s.canvas.width s.canvas.height s.currentImage } } := by
  unfold resetCanvas
  rw [clearRect_whole]
  cases h : s.currentImage with
  | none => simp [baseImageRaster]
  | some img =>
    by_cases hz : img.width = 0 ∨ img.height = 0
    · simp [baseImageRaster, Canvas.drawImage, hz]
    · simp [baseImageRaster, Canvas.drawImage, hz]

/-- C7: after `resetCanvas` (the clear action) the surface holds the base image
alone at the computed transform, or nothing when no image is active; this does
not depend on the strokes drawn before, so an export right after a clear is the
base-image-only raster, and clearing twice is the same as clearing once. -/
theorem resetCanvas_base_image_only (s : State) :
    (resetCanvas s).canvas.painted
        = baseImageRaster s.canvas.width s.canvas.height s.currentImage ∧
    (s.currentImage = none → (resetCanvas s).canvas.painted = []) ∧
    exportMask (clearMaskClick s)
        = baseImageRaster s.canvas.width s.canvas.height s.currentImage ∧
    (∀ strokes path, (resetCanvas { s with canvas := { s.canvas with
          painted := strokes, path := path } }).canvas.painted
        = (resetCanvas s).canvas.painted) ∧
    clearMaskClick (clearMaskClick s) = clearMaskClick s := by
  refine ⟨?_, ?_, ?_, ?_, ?_⟩
  · rw [resetCanvas_eq]
  · intro h
    rw [resetCanvas_eq, h]
    rfl
  · simp only [exportMask, clearMaskClick]
    rw [resetCanvas_eq]
  · intro strokes path
    rw [resetCanvas_eq, resetCanvas_eq]
  · simp only [clearMaskClick]
    rw [resetCanvas_eq (resetCanvas s), resetCanvas_eq s]

theorem resetCanvas_base_image_only_witness :
    (resetCanvas { Example.picked [Example.photoA] with
        canvas := { width := 600, height := 400,
                    painted := [Paint.stroke [(1, 1), (5, 9)]], path := [(1, 1), (5, 9)] } }
      ).canvas.painted = [] :=
  (resetCanvas_base_image_only { Example.picked [Example.photoA] with
        canvas := { width := 600, height := 400,
                    painted := [Paint.stroke [(1, 1), (5, 9)]], path := [(1, 1), (5, 9)] } }
    ).2.1 rfl

/-- C10: with no active base image (`currentImage` is `null`) the `mousedown`
handler at any pointer position changes nothing: the surface and the `drawing`
flag are as before. -/
theorem mousedown_without_image (s : State) (offsetX offsetY : Int)
    (h : s.currentImage = none) :
    mousedown s offsetX offsetY = s ∧
    (mousedown s offsetX offsetY).canvas = s.canvas ∧
    (mousedown s offsetX offsetY).drawing = s.drawing := by
  have : mousedown s offsetX offsetY = s := by
    unfold mousedown
    rw [h]
  rw [this]
  exact ⟨rfl, rfl, rfl⟩

theorem mousedown_without_image_witness :
    mousedown (Example.picked [Example.photoA]) 5 7 = Example.picked [Example.photoA] ∧
    (mousedown (Example.picked [Example.photoA]) 5 7).canvas
      = (Example.picked [Example.photoA]).canvas ∧
    (mousedown (Example.picked [Example.photoA]) 5 7).drawing
      = (Example.picked [Example.photoA]).drawing :=
  mousedown_without_image (Example.picked [Example.photoA]) 5 7 rfl

end Backend

/-! ## Photo registry -/

theorem findIdx?_first {α : Type} (p : α → Bool) (xs : List α) (i k : Nat) (x : α)
    (hx : xs[i]? = some x) (hp : p x = true)
    (hfirst : ∀ j y, j < i → xs[j]? = some y → p y = false) :
    xs.findIdx? p k = some (k + i) := by
  induction xs generalizing i k with
  | nil => simp at hx
  | cons a as ih =>
    rw [List.findIdx?_cons]
    cases i with
    | zero =>
      simp only [List.getElem?_cons_zero, Option.some.injEq] at hx
      subst hx
      simp [hp]
    | succ n =>
      have ha : p a = false := hfirst 0 a (Nat.succ_pos n) (by simp)
      rw [List.getElem?_cons_succ] at hx
      have hrest : ∀ j y, j < n → as[j]? = some y → p y = false := by
        intro j y hj hy
        exact hfirst (j + 1) y (Nat.succ_lt_succ hj) (by simpa using hy)
      rw [ih n (k + 1) hx hrest]
      simp only [ha, Bool.false_eq_true, if_false]
      congr 1
      omega

theorem findIndex_first {α : Type} (p : α → Bool) (xs : List α) (i : Nat) (x : α)
    (hx : xs[i]? = some x) (hp : p x = true)
    (hfirst : ∀ j y, j < i → xs[j]? = some y → p y = false) :
    findIndex p xs = (i : Int) := by
  unfold findIndex
  rw [findIdx?_first p xs i 0 x hx hp hfirst]
  simp

theorem arrayGet_natCast {α : Type} (xs : List α) (i : Nat) :
    arrayGet xs (i : Int) = xs[i]? := by
  unfold arrayGet
  simp

namespace Backend

/-- Resolution of the name of a local photo that is the first of that name: the
entry of `jobPhotos` at the same index. -/
theorem resolveJobPhoto_first (s : State) (i : Nat) (file : LocalPhoto)
    (hfile : s.uploadedPhotos[i]? = some file)
    (hfirst : ∀ j other, j < i → s.uploadedPhotos[j]? = some other → other.name ≠ file.name) :
    resolveJobPhoto s file.name = s.jobPhotos[i]? := by
  unfold resolveJobPhoto
  have h := findIndex_first (fun f : LocalPhoto => f.name == file.name) s.uploadedPhotos i file
    hfile (by simp) (by
      intro j y hj hy
      simpa using hfirst j y hj hy)
  simp only [h, arrayGet_natCast]

theorem startJob_ok (s : State) (data : JobData) (hne : s.uploadedPhotos ≠ []) :
    startJob s { ok := true, json := data } =
      ({ s with jobId := some data.job_id, jobPhotos := data.photos,
                runEstimateDisabled := false,
                resultOutput := "Job " ++ data.job_id ++ " created." },
        [{ url := "/jobs", body := Body.files "files" s.uploadedPhotos }]) := by
  have hlen : s.uploadedPhotos.length ≠ 0 := by
    simpa [List.length_eq_zero] using hne
  simp [startJob, startJobClick, startJobResponse, hlen]

theorem startJob_resolve_first (s : State) (data : JobData) (hne : s.uploadedPhotos ≠ [])
    (i : Nat) (file : LocalPhoto) (hfile : s.uploadedPhotos[i]? = some file)
    (hfirst : ∀ j other, j < i → s.uploadedPhotos[j]? = some other → other.name ≠ file.name) :
    resolveJobPhoto (startJob s { ok := true, json := data }).1 file.name
      = data.photos[i]? := by
  have h := resolveJobPhoto_first (startJob s { ok := true, json := data }).1 i file
    (by rw [startJob_ok s data hne]; exact hfile)
    (by rw [startJob_ok s data hne]; exact hfirst)
  rw [h, startJob_ok s data hne]

/-- C1 as stated fails: with two local files both named `a.png` and the response
photos `[p1, p2]` in submission order, the name of the second local photo
resolves to `p1`, not to the second job photo `p2`. -/
theorem startJob_duplicate_name_resolves_first :
    (Example.jobJ1 [Example.p1, Example.p2]).json.photos.length
        = (Example.picked [Example.photoA, Example.photoA2]).uploadedPhotos.length ∧
    (Example.picked [Example.photoA, Example.photoA2]).uploadedPhotos[1]?
        = some Example.photoA2 ∧
    (Example.jobJ1 [Example.p1, Example.p2]).json.photos[1]? = some Example.p2 ∧
    resolveJobPhoto
        (startJob (Example.picked [Example.photoA, Example.photoA2])
          (Example.jobJ1 [Example.p1, Example.p2])).1
        Example.photoA2.name = some Example.p1 ∧
    resolveJobPhoto
        (startJob (Example.picked [Example.photoA, Example.photoA2])
          (Example.jobJ1 [Example.p1, Example.p2])).1
        Example.photoA2.name ≠ (Example.jobJ1 [Example.p1, Example.p2]).json.photos[1]? := by
  decide

/-- C1 (amended): for a non-empty local list and a response with as many photos,
in submission order, once the create-job handler has stored the response the
name of the `i`-th local photo resolves to the `i`-th job photo, for every `i`
such that no earlier local photo has the same name. -/
theorem startJob_resolves_in_order (s : State) (data : JobData) (i : Nat)
    (file : LocalPhoto)
    (hlen : data.photos.length = s.uploadedPhotos.length)
    (hfile : s.uploadedPhotos[i]? = some file)
    (hfirst : ∀ j other, j < i → s.uploadedPhotos[j]? = some other → other.name ≠ file.name) :
    ∃ photo, data.photos[i]? = some photo ∧
      resolveJobPhoto (startJob s { ok := true, json := data }).1 file.name = some photo := by
  have hne : s.uploadedPhotos ≠ [] := by
    intro h
    rw [h] at hfile
    simp at hfile
  have hi : i < data.photos.length := by
    rw [hlen]
    exact (List.getElem?_eq_some_iff.mp hfile).1
  refine ⟨data.photos[i], List.getElem?_eq_getElem hi, ?_⟩
  rw [startJob_resolve_first s data hne i file hfile hfirst]
  exact List.getElem?_eq_getElem hi

theorem startJob_resolves_in_order_witness :
    ∃ photo, [Example.p1, Example.p2][1]? = some photo ∧
      resolveJobPhoto
        (startJob (Example.picked [Example.photoA, Example.photoB])
          { ok := true, json := { job_id := "J1", photos := [Example.p1, Example.p2] } }).1
        Example.photoB.name = some photo :=
  startJob_resolves_in_order (Example.picked [Example.photoA, Example.photoB])
    { job_id := "J1", photos := [Example.p1, Example.p2] } 1 Example.photoB
    (by decide) (by decide) (by
      intro j other hj hother
      have hj0 : j = 0 := by omega
      subst hj0
      have : other = Example.photoA := by
        simpa [Example.picked] using hother.symm
      subst this
      decide)

/-- C2 as stated fails: with two local files and a response holding one photo
the handler reports the job as created and stores the single photo; afterwards
the name of the first local photo resolves to it. -/
theorem startJob_short_response_is_bound :
    (Example.jobJ1 [Example.p1]).json.photos.length
      ≠ (Example.picked [Example.photoA, Example.photoB]).uploadedPhotos.length ∧
    (startJob (Example.picked [Example.photoA, Example.photoB])
      (Example.jobJ1 [Example.p1])).1.jobId = some "J1" ∧
    (startJob (Example.picked [Example.photoA, Example.photoB])
      (Example.jobJ1 [Example.p1])).1.resultOutput = "Job J1 created." ∧
    resolveJobPhoto
      (startJob (Example.picked [Example.photoA, Example.photoB])
        (Example.jobJ1 [Example.p1])).1 "a.png" = some Example.p1 := by
  decide

/-- C2 (amended): whatever the number of photos in a successful response (equal
to the number of local photos or not), the create-job handler stores the job id
and the photos as received and reports the job as created; afterwards the name
of the `i`-th local photo (no earlier one having that name) resolves to the
`i`-th response photo when `i` is below the response count and to nothing
otherwise. -/
theorem startJob_binds_any_count (s : State) (data : JobData)
    (hne : s.uploadedPhotos ≠ []) :
    (startJob s { ok := true, json := data }).1.jobId = some data.job_id ∧
    (startJob s { ok := true, json := data }).1.jobPhotos = data.photos ∧
    (startJob s { ok := true, json := data }).1.resultOutput
      = "Job " ++ data.job_id ++ " created." ∧
    ∀ (i : Nat) (file : LocalPhoto), s.uploadedPhotos[i]? = some file →
      (∀ j other, j < i → s.uploadedPhotos[j]? = some other → other.name ≠ file.name) →
      (∀ h : i < data.photos.length,
        resolveJobPhoto (startJob s { ok := true, json := data }).1 file.name
          = some data.photos[i]) ∧
      (data.photos.length ≤ i →
        resolveJobPhoto (startJob s { ok := true, json := data }).1 file.name = none) := by
  refine ⟨by rw [startJob_ok s data hne], by rw [startJob_ok s data hne],
    by rw [startJob_ok s data hne], ?_⟩
  intro i file hfile hfirst
  rw [startJob_resolve_first s data hne i file hfile hfirst]
  constructor
  · intro h
    exact List.getElem?_eq_getElem h
  · intro h
    exact List.getElem?_eq_none h

theorem startJob_binds_any_count_witness :
    (startJob (Example.picked [Example.photoA, Example.photoB])
      { ok := true, json := { job_id := "J1", photos := [Example.p1] } }).1.jobPhotos
      = [Example.p1] :=
  (startJob_binds_any_count (Example.picked [Example.photoA, Example.photoB])
    { job_id := "J1", photos := [Example.p1] } (by decide)).2.1

/-! ## Replacing the selection, saving a mask -/

theorem loadSelectedImage_frame (s : State) :
    (loadSelectedImage s).jobId = s.jobId ∧
    (loadSelectedImage s).jobPhotos = s.jobPhotos ∧
    (loadSelectedImage s).uploadedPhotos = s.uploadedPhotos ∧
    (loadSelectedImage s).selected = s.selected := by
  unfold loadSelectedImage
  by_cases hsel : s.selected = ""
  · simp only [hsel, if_true]
    rw [resetCanvas_eq]
    exact ⟨rfl, rfl, rfl, rfl⟩
  · simp only [hsel, if_false]
    cases s.uploadedPhotos.find? (fun photo => photo.name == s.selected) with
    | none => exact ⟨rfl, rfl, rfl, rfl⟩
    | some file => exact ⟨rfl, rfl, rfl, rfl⟩

theorem photoInputChange_frame (s : State) (files : List LocalPhoto) :
    (photoInputChange s files).jobId = s.jobId ∧
    (photoInputChange s files).jobPhotos = s.jobPhotos ∧
    (photoInputChange s files).uploadedPhotos = files ∧
    (photoInputChange s files).selected = (files.map (fun file => file.name)).headD "" := by
  unfold photoInputChange
  obtain ⟨h1, h2, h3, h4⟩ := loadSelectedImage_frame
    { s with uploadedPhotos := files, options := files.map (fun file => file.name),
             selected := (files.map (fun file => file.name)).headD "" }
  exact ⟨h1, h2, h3, h4⟩

theorem saveMask_issues (s : State) (response : Response Unit) (id : String)
    (photo : JobPhoto) (hid : s.jobId = some id) (hne : id ≠ "") (hsel : s.selected ≠ "")
    (hres : resolveJobPhoto s s.selected = some photo) :
    saveMask s response
      = (saveMaskResponse s response, [saveMaskRequest s photo (exportMask s)]) := by
  unfold resolveJobPhoto at hres
  simp only [] at hres
  simp [saveMask, saveMaskClick, hid, truthy, hne, hsel, hres]

/-- C3 as stated fails: a job `J1` with photo `p1` was created for `a.png`; after
the selection is replaced by `c.png` that name resolves to `p1`, and the
save-mask handler posts a mask to `/jobs/J1/mask/p1`. -/
theorem photoInputChange_keeps_old_job_photos :
    (startJob (Example.picked [Example.photoA]) (Example.jobJ1 [Example.p1])).1.jobId
      = some "J1" ∧
    resolveJobPhoto
      (photoInputChange
        (startJob (Example.picked [Example.photoA]) (Example.jobJ1 [Example.p1])).1
        [Example.photoC]) "c.png" = some Example.p1 ∧
    (saveMask
      (photoInputChange
        (startJob (Example.picked [Example.photoA]) (Example.jobJ1 [Example.p1])).1
        [Example.photoC]) { ok := true, json := () }).2.map (fun request => request.url)
      = ["/jobs/J1/mask/p1"] := by
  decide

/-- C3 (amended): the photo-input change handler replaces the local selection and
leaves `jobId` and `jobPhotos` as they were; afterwards the name of the `i`-th
new local photo (no earlier one having that name) resolves to the `i`-th photo
of the earlier job when there is one, and the save-mask handler then posts the
mask against that job and photo id. -/
theorem photoInputChange_keeps_correlation (s : State) (files : List LocalPhoto) :
    (photoInputChange s files).uploadedPhotos = files ∧
    (photoInputChange s files).jobId = s.jobId ∧
    (photoInputChange s files).jobPhotos = s.jobPhotos ∧
    (∀ (i : Nat) (file : LocalPhoto), files[i]? = some file →
      (∀ j other, j < i → files[j]? = some other → other.name ≠ file.name) →
      resolveJobPhoto (photoInputChange s files) file.name = s.jobPhotos[i]?) ∧
    (∀ (id : String) (file : LocalPhoto) (rest : List LocalPhoto) (photo : JobPhoto)
        (others : List JobPhoto) (response : Response Unit),
      s.jobId = some id → id ≠ "" → files = file :: rest → file.name ≠ "" →
      s.jobPhotos = photo :: others →
      (saveMask (photoInputChange s files) response).2.map (fun request => request.url)
        = ["/jobs/" ++ id ++ "/mask/" ++ photo.photo_id]) := by
  obtain ⟨hjob, hphotos, hfiles, hselected⟩ := photoInputChange_frame s files
  have hresolve : ∀ (i : Nat) (file : LocalPhoto), files[i]? = some file →
      (∀ j other, j < i → files[j]? = some other → other.name ≠ file.name) →
      resolveJobPhoto (photoInputChange s files) file.name = s.jobPhotos[i]? := by
    intro i file hfile hfirst
    have h := resolveJobPhoto_first (photoInputChange s files) i file
      (by rw [hfiles]; exact hfile) (by rw [hfiles]; exact hfirst)
    rw [h, hphotos]
  refine ⟨hfiles, hjob, hphotos, hresolve, ?_⟩
  intro id file rest photo others response hid hne hcons hname hjp
  subst hcons
  have hsel : (photoInputChange s (file :: rest)).selected = file.name := by
    rw [hselected]
    rfl
  have hres := hresolve 0 file List.getElem?_cons_zero (by
    intro j other hj
    omega)
  rw [hjp, List.getElem?_cons_zero] at hres
  rw [saveMask_issues (photoInputChange s (file :: rest)) response id photo
    (by rw [hjob]; exact hid) hne (by rw [hsel]; exact hname) (by rw [hsel]; exact hres)]
  simp [saveMaskRequest, hjob, hid, jsString]

theorem photoInputChange_keeps_correlation_witness :
    (saveMask
      (photoInputChange
        { Example.picked [Example.photoA] with jobId := some "J1", jobPhotos := [Example.p1] }
        [Example.photoC]) { ok := true, json := () }).2.map (fun request => request.url)
      = ["/jobs/" ++ "J1" ++ "/mask/" ++ Example.p1.photo_id] :=
  (photoInputChange_keeps_correlation
    { Example.picked [Example.photoA] with jobId := some "J1", jobPhotos := [Example.p1] }
    [Example.photoC]).2.2.2.2 "J1" Example.photoC [] Example.p1 []
    { ok := true, json := () } rfl (by decide) rfl (by decide) rfl

/-- C4: when no job exists (`jobId` is `null`), or the selected name is empty, or
it does not resolve to a job photo, the save-mask handler ends with one of its
three precondition messages, issues no request and changes nothing but the
status text (so `jobId` and `jobPhotos` are as before); whenever it issues a
request, a job exists and the selected name resolves, and the request is the
mask upload for that photo. -/
theorem saveMask_precondition (s : State) (response : Response Unit) :
    ((s.jobId = none ∨ s.selected = "" ∨ resolveJobPhoto s s.selected = none) →
      (saveMask s response).2 = [] ∧
      (saveMask s response).1.jobId = s.jobId ∧
      (saveMask s response).1.jobPhotos = s.jobPhotos ∧
      ∃ message, message ∈ ["Create a job first.", "Select a photo before saving a mask.",
          "Unable to match photo to job."] ∧
        (saveMask s response).1 = { s with resultOutput := message }) ∧
    ((saveMask s response).2 ≠ [] →
      ∃ id photo, s.jobId = some id ∧ id ≠ "" ∧ s.selected ≠ "" ∧
        resolveJobPhoto s s.selected = some photo ∧
        (saveMask s response).2 = [saveMaskRequest s photo (exportMask s)]) := by
  by_cases hjob : truthy s.jobId = true
  · by_cases hsel : s.selected = ""
    · have hrun : saveMask s response
          = ({ s with resultOutput := "Select a photo before saving a mask." }, []) := by
        simp [saveMask, saveMaskClick, hjob, hsel]
      rw [hrun]
      refine ⟨fun _ => ⟨rfl, rfl, rfl, _, by simp, rfl⟩, fun h => absurd rfl h⟩
    · cases hres : resolveJobPhoto s s.selected with
      | none =>
        have hrun : saveMask s response
            = ({ s with resultOutput := "Unable to match photo to job." }, []) := by
          unfold resolveJobPhoto at hres
          simp only [] at hres
          simp [saveMask, saveMaskClick, hjob, hsel, hres]
        rw [hrun]
        refine ⟨fun _ => ⟨rfl, rfl, rfl, _, by simp, rfl⟩, fun h => absurd rfl h⟩
      | some photo =>
        cases hid : s.jobId with
        | none => simp [hid, truthy] at hjob
        | some id =>
          have hne : id ≠ "" := by
            simpa [hid, truthy] using hjob
          rw [← hid, saveMask_issues s response id photo hid hne hsel hres]
          constructor
          · intro h
            rcases h with h | h | h
            · rw [hid] at h
              cases h
            · exact absurd h hsel
            · cases h
          · intro _
            exact ⟨id, photo, hid, hne, hsel, rfl, rfl⟩
  · have hrun : saveMask s response = ({ s with resultOutput := "Create a job first." }, []) := by
      simp [saveMask, saveMaskClick, hjob]
    rw [hrun]
    refine ⟨fun _ => ⟨rfl, rfl, rfl, _, by simp, rfl⟩, fun h => absurd rfl h⟩

theorem saveMask_precondition_witness :
    (saveMask (Example.picked [Example.photoA]) { ok := true, json := () }).2 = [] ∧
    (saveMask (Example.picked [Example.photoA]) { ok := true, json := () }).1.jobId = none :=
  ⟨((saveMask_precondition (Example.picked [Example.photoA])
      { ok := true, json := () }).1 (Or.inl rfl)).1,
    ((saveMask_precondition (Example.picked [Example.photoA])
      { ok := true, json := () }).1 (Or.inl rfl)).2.1⟩

end Backend

/-! ## Failed transport responses -/

theorem Backend.startJob_failed (s : Backend.State) (r : Response JobData)
    (h : r.ok = false) :
    (Backend.startJob s r).1.jobId = s.jobId ∧
    (Backend.startJob s r).1.jobPhotos = s.jobPhotos ∧
    (Backend.startJob s r).2.length ≤ 1 ∧
    ((Backend.startJob s r).2 ≠ [] →
      (Backend.startJob s r).1 = { s with resultOutput := "Upload failed." }) := by
  by_cases hlen : s.uploadedPhotos.length = 0
  · simp [Backend.startJob, Backend.startJobClick, hlen]
  · simp [Backend.startJob, Backend.startJobClick, Backend.startJobResponse, hlen, h]

theorem Backend.saveMask_failed (s : Backend.State) (r : Response Unit)
    (h : r.ok = false) :
    (Backend.saveMask s r).1.jobId = s.jobId ∧
    (Backend.saveMask s r).1.jobPhotos = s.jobPhotos ∧
    (Backend.saveMask s r).2.length ≤ 1 ∧
    ((Backend.saveMask s r).2 ≠ [] →
      (Backend.saveMask s r).1 = { s with resultOutput := "Mask upload failed." }) := by
  unfold Backend.saveMask
  cases hclick : Backend.saveMaskClick s with
  | mk s1 next =>
    have hs1 : next ≠ none → s1 = s := by
      intro hnext
      unfold Backend.saveMaskClick at hclick
      split at hclick
      · cases hclick
        exact absurd rfl hnext
      · simp only [] at hclick
        split at hclick
        · cases hclick
          exact absurd rfl hnext
        · split at hclick
          · cases hclick
            exact absurd rfl hnext
          · cases hclick
            rfl
    have hframe : s1.jobId = s.jobId ∧ s1.jobPhotos = s.jobPhotos := by
      unfold Backend.saveMaskClick at hclick
      split at hclick
      · cases hclick
        exact ⟨rfl, rfl⟩
      · simp only [] at hclick
        split at hclick
        · cases hclick
          exact ⟨rfl, rfl⟩
        · split at hclick
          · cases hclick
            exact ⟨rfl, rfl⟩
          · cases hclick
            exact ⟨rfl, rfl⟩
    cases next with
    | none => simpa using hframe
    | some pending =>
      obtain ⟨jobPhoto, blob⟩ := pending
      have hs := hs1 (by simp)
      subst hs
      simp [Backend.saveMaskResponse, h]

theorem Backend.runEstimate_failed (s : Backend.State) (r : Response String)
    (h : r.ok = false) :
    (Backend.runEstimate s r).1.jobId = s.jobId ∧
    (Backend.runEstimate s r).1.jobPhotos = s.jobPhotos ∧
    (Backend.runEstimate s r).2.length ≤ 1 ∧
    ((Backend.runEstimate s r).2 ≠ [] →
      (Backend.runEstimate s r).1 = { s with resultOutput := "Estimate failed." }) := by
  by_cases hjob : truthy s.jobId = true
  · simp [Backend.runEstimate, Backend.runEstimateClick, Backend.runEstimateResponse, hjob, h]
  · simp [Backend.runEstimate, Backend.runEstimateClick, hjob]

theorem Frontend.upload_failed (s : Frontend.State) (r : Response Frontend.JobData)
    (h : r.ok = false) :
    (Frontend.upload s r).1.currentJobId = s.currentJobId ∧
    (Frontend.upload s r).1.photoEntries = s.photoEntries ∧
    (Frontend.upload s r).2.length ≤ 1 ∧
    ((Frontend.upload s r).2 ≠ [] →
      (Frontend.upload s r).1 = { s with jobStatus := "Failed to create job." }) := by
  by_cases hlen : s.photoInputFiles.length = 0
  · simp [Frontend.upload, Frontend.uploadClick, hlen]
  · simp [Frontend.upload, Frontend.uploadClick, Frontend.uploadResponse, hlen, h]

theorem Frontend.maskUpload_failed (s : Frontend.State) (row : Nat) (r : Response Unit)
    (h : r.ok = false) :
    (Frontend.maskUpload s row r).1.currentJobId = s.currentJobId ∧
    (Frontend.maskUpload s row r).1.photoEntries = s.photoEntries ∧
    (Frontend.maskUpload s row r).2.length ≤ 1 ∧
    ((Frontend.maskUpload s row r).2 ≠ [] →
      (Frontend.maskUpload s row r).1
        = { s with alerts := s.alerts ++ ["Failed to upload mask."] }) := by
  unfold Frontend.maskUpload Frontend.maskUploadClick
  cases hrow : s.maskList[row]? with
  | none => simp
  | some entry =>
    cases hfiles : entry.inputFiles with
    | nil => simp [hfiles]
    | cons file rest => simp [hfiles, Frontend.maskUploadResponse, h]

theorem Frontend.estimate_failed (s : Frontend.State) (r : Response String)
    (h : r.ok = false) :
    (Frontend.estimate s r).1.currentJobId = s.currentJobId ∧
    (Frontend.estimate s r).1.photoEntries = s.photoEntries ∧
    (Frontend.estimate s r).2.length ≤ 1 ∧
    ((Frontend.estimate s r).2 ≠ [] →
      (Frontend.estimate s r).1 = { s with estimateOutput := "Failed to estimate." }) := by
  by_cases hjob : truthy s.currentJobId = true
  · simp [Frontend.estimate, Frontend.estimateClick, Frontend.estimateResponse, hjob, h]
  · simp [Frontend.estimate, Frontend.estimateClick, hjob]

/-- C8: for create job, save mask and run estimate, in both scripts and from any
prior state, a non-success transport response leaves the job state (job id and
job photos) as it was, at most the one request of the call is issued (no retry),
and when that request was issued the only change is the failure message. -/
theorem failed_response_keeps_job_state (b : Backend.State) (f : Frontend.State)
    (row : Nat) (rj : Response JobData) (rm : Response Unit) (re : Response String)
    (rf : Response Frontend.JobData)
    (hj : rj.ok = false) (hm : rm.ok = false) (he : re.ok = false) (hf : rf.ok = false) :
    ((Backend.startJob b rj).1.jobId = b.jobId ∧
      (Backend.startJob b rj).1.jobPhotos = b.jobPhotos ∧
      (Backend.startJob b rj).2.length ≤ 1 ∧
      ((Backend.startJob b rj).2 ≠ [] →
        (Backend.startJob b rj).1 = { b with resultOutput := "Upload failed." })) ∧
    ((Backend.saveMask b rm).1.jobId = b.jobId ∧
      (Backend.saveMask b rm).1.jobPhotos = b.jobPhotos ∧
      (Backend.saveMask b rm).2.length ≤ 1 ∧
      ((Backend.saveMask b rm).2 ≠ [] →
        (Backend.saveMask b rm).1 = { b with resultOutput := "Mask upload failed." })) ∧
    ((Backend.runEstimate b re).1.jobId = b.jobId ∧
      (Backend.runEstimate b re).1.jobPhotos = b.jobPhotos ∧
      (Backend.runEstimate b re).2.length ≤ 1 ∧
      ((Backend.runEstimate b re).2 ≠ [] →
        (Backend.runEstimate b re).1 = { b with resultOutput := "Estimate failed." })) ∧
    ((Frontend.upload f rf).1.currentJobId = f.currentJobId ∧
      (Frontend.upload f rf).1.photoEntries = f.photoEntries ∧
      (Frontend.upload f rf).2.length ≤ 1 ∧
      ((Frontend.upload f rf).2 ≠ [] →
        (Frontend.upload f rf).1 = { f with jobStatus := "Failed to create job." })) ∧
    ((Frontend.maskUpload f row rm).1.currentJobId = f.currentJobId ∧
      (Frontend.maskUpload f row rm).1.photoEntries = f.photoEntries ∧
      (Frontend.maskUpload f row rm).2.length ≤ 1 ∧
      ((Frontend.maskUpload f row rm).2 ≠ [] →
        (Frontend.maskUpload f row rm).1
          = { f with alerts := f.alerts ++ ["Failed to upload mask."] })) ∧
    ((Frontend.estimate f re).1.currentJobId = f.currentJobId ∧
      (Frontend.estimate f re).1.photoEntries = f.photoEntries ∧
      (Frontend.estimate f re).2.length ≤ 1 ∧
      ((Frontend.estimate f re).2 ≠ [] →
        (Frontend.estimate f re).1 = { f with estimateOutput := "Failed to estimate." })) :=
  ⟨Backend.startJob_failed b rj hj, Backend.saveMask_failed b rm hm,
    Backend.runEstimate_failed b re he, Frontend.upload_failed f rf hf,
    Frontend.maskUpload_failed f row rm hm, Frontend.estimate_failed f re he⟩

theorem failed_response_keeps_job_state_witness :
    (Backend.runEstimate Example.withJob { ok := false, json := "" }).1.jobId = some "J1" ∧
    (Backend.runEstimate Example.withJob { ok := false, json := "" }).2.length = 1 ∧
    (Backend.startJob Example.withJob
      { ok := false, json := { job_id := "J2", photos := [] } }).1.jobPhotos
        = [Example.p1] ∧
    (Frontend.estimate Example.frontPage { ok := false, json := "" }).1.currentJobId
        = some "J1" :=
  ⟨(failed_response_keeps_job_state Example.withJob Example.frontPage 0
      { ok := false, json := { job_id := "J2", photos := [] } } { ok := false, json := () }
      { ok := false, json := "" } { ok := false, json := { job_id := "J2", photos := none } }
      rfl rfl rfl rfl).2.2.1.1,
    by decide,
    (failed_response_keeps_job_state Example.withJob Example.frontPage 0
      { ok := false, json := { job_id := "J2", photos := [] } } { ok := false, json := () }
      { ok := false, json := "" } { ok := false, json := { job_id := "J2", photos := none } }
      rfl rfl rfl rfl).1.2.1,
    (failed_response_keeps_job_state Example.withJob Example.frontPage 0
      { ok := false, json := { job_id := "J2", photos := [] } } { ok := false, json := () }
      { ok := false, json := "" } { ok := false, json := { job_id := "J2", photos := none } }
      rfl rfl rfl rfl).2.2.2.2.2.1⟩

/-! ## Overlapping selections -/

namespace Backend

theorem photoSelectChange_starts (s : State) (value : String) (file : LocalPhoto)
    (h : fileToLoad { s with selected := value } = some file) :
    photoSelectChange s value = { s with selected := value, loading := s.loading ++ [file] } := by
  unfold fileToLoad at h
  unfold photoSelectChange loadSelectedImage
  by_cases hv : value = ""
  · simp [hv] at h
  · simp only [hv, if_false] at h
    simp only [hv, if_false, h]

theorem imgOnload_oldest (s : State) (file : LocalPhoto) (rest : List LocalPhoto)
    (h : s.loading = file :: rest) :
    imgOnload s 0
      = some (resetCanvas { s with currentImage := some (decodeImage file), loading := rest }) := by
  unfold imgOnload
  simp [h]

theorem latestWins_step (s s1 : State) (latest : Option Image) (e : SelectEvent)
    (hinv : latestWins s latest) (hord : inInitiationOrder [e] = true)
    (hstep : selectStep s e = some s1) :
    latestWins s1 ((initiatedImage s e).orElse (fun _ => latest)) := by
  cases e with
  | initiated value =>
    cases hfile : fileToLoad { s with selected := value } with
    | none => simp [selectStep, hfile] at hstep
    | some file =>
      simp only [selectStep, hfile, Option.some.injEq] at hstep
      rw [photoSelectChange_starts s value file hfile] at hstep
      subst hstep
      simp [latestWins, initiatedImage, hfile]
  | completed k =>
    have hk : k = 0 := by
      simpa [inInitiationOrder] using hord
    subst hk
    cases hload : s.loading with
    | nil => simp [selectStep, imgOnload, hload] at hstep
    | cons file rest =>
      simp only [selectStep] at hstep
      rw [imgOnload_oldest s file rest hload, resetCanvas_eq] at hstep
      simp only [Option.some.injEq] at hstep
      subst hstep
      unfold latestWins at hinv
      rw [hload] at hinv
      cases rest with
      | nil =>
        simp only [List.getLast?_singleton] at hinv
        simp [latestWins, initiatedImage, hinv]
      | cons next more =>
        rw [List.getLast?_cons_cons] at hinv
        simpa [latestWins, initiatedImage] using hinv

theorem latestWins_run (events : List SelectEvent) (s s1 : State)
    (latest latest1 : Option Image) (hinv : latestWins s latest)
    (hord : inInitiationOrder events = true)
    (hrun : selectRun s latest events = some (s1, latest1)) :
    latestWins s1 latest1 := by
  induction events generalizing s latest with
  | nil =>
    simp only [selectRun, Option.some.injEq, Prod.mk.injEq] at hrun
    obtain ⟨h1, h2⟩ := hrun
    subst h1
    subst h2
    exact hinv
  | cons e es ih =>
    have hsplit : inInitiationOrder [e] = true ∧ inInitiationOrder es = true := by
      cases e with
      | initiated value => simpa [inInitiationOrder] using hord
      | completed k => simpa [inInitiationOrder] using hord
    cases hstep : selectStep s e with
    | none => simp [selectRun, hstep] at hrun
    | some s2 =>
      simp only [selectRun, hstep] at hrun
      exact ih s2 _ (latestWins_step s s2 latest e hinv hsplit.1 hstep) hsplit.2 hrun

/-- C9 as stated fails: `a.png` is selected, then `b.png`; the decode of `b.png`
completes first and that of `a.png` after it.  No decode is pending, the most
recently initiated selection is `b.png`, and the active image is that of
`a.png`: the superseded decode was not discarded. -/
theorem late_decode_overwrites_newer_selection :
    (selectRun (Example.picked [Example.photoA, Example.photoB]) none
      [SelectEvent.initiated "a.png", SelectEvent.initiated "b.png",
        SelectEvent.completed 1, SelectEvent.completed 0]).map
      (fun r => (r.1.loading, r.1.currentImage, r.2))
    = some ([], some (decodeImage Example.photoA), some (decodeImage Example.photoB)) ∧
    decodeImage Example.photoA ≠ decodeImage Example.photoB := by
  constructor
  · simp [selectRun, selectStep, initiatedImage, fileToLoad, photoSelectChange,
      loadSelectedImage, imgOnload, resetCanvas_eq, Example.picked, Example.photoA,
      Example.photoB, State.init]
  · decide

/-- C9 (amended): in every interleaving of "selection initiated" and "decode
completed" events in which the decodes complete in the order their selections
were initiated, starting with no decode pending: whenever no decode is pending,
the active base image is the image of the most recently initiated selection. -/
theorem latest_selection_wins_in_order (s0 s : State) (events : List SelectEvent)
    (img : Image) (h0 : s0.loading = [])
    (hord : inInitiationOrder events = true)
    (hrun : selectRun s0 none events = some (s, some img))
    (hidle : s.loading = []) :
    s.currentImage = some img := by
  have hinit : latestWins s0 none := by
    simp [latestWins, h0]
  have hfinal := latestWins_run events s0 s none (some img) hinit hord hrun
  unfold latestWins at hfinal
  rw [hidle] at hfinal
  rcases hfinal with h | h
  · cases h
  · exact h

theorem latest_selection_wins_in_order_witness :
    ∃ s, selectRun (Example.picked [Example.photoA, Example.photoB]) none
        [SelectEvent.initiated "a.png", SelectEvent.initiated "b.png",
          SelectEvent.completed 0, SelectEvent.completed 0]
        = some (s, some (decodeImage Example.photoB)) ∧
      s.loading = [] ∧ s.currentImage = some (decodeImage Example.photoB) := by
  have hsome : (selectRun (Example.picked [Example.photoA, Example.photoB]) none
      [SelectEvent.initiated "a.png", SelectEvent.initiated "b.png",
        SelectEvent.completed 0, SelectEvent.completed 0]).map
      (fun r => (r.1.loading, r.2)) = some ([], some (decodeImage Example.photoB)) := by
    simp [selectRun, selectStep, initiatedImage, fileToLoad, photoSelectChange,
      loadSelectedImage, imgOnload, resetCanvas_eq, Example.picked, Example.photoA,
      Example.photoB, State.init]
  cases hr : selectRun (Example.picked [Example.photoA, Example.photoB]) none
      [SelectEvent.initiated "a.png", SelectEvent.initiated "b.png",
        SelectEvent.completed 0, SelectEvent.completed 0] with
  | none =>
    rw [hr] at hsome
    simp at hsome
  | some r =>
    obtain ⟨s, latest⟩ := r
    rw [hr] at hsome
    simp only [Option.map_some', Option.some.injEq, Prod.mk.injEq] at hsome
    obtain ⟨hl, hg⟩ := hsome
    subst hg
    exact ⟨s, rfl, hl, latest_selection_wins_in_order
      (Example.picked [Example.photoA, Example.photoB]) s _ _ rfl (by decide) hr hl⟩

end Backend

end CuYards
